import Mathlib

/-!
Verification of the sloggers configuration-to-sink pipeline.

This file gives a shallow embedding of the three source files of the
repository (`src/file.rs`, `src/error.rs`, `src/config.rs`) and proves the
specification claims about them.

The file destination writer (`FileAppender`) performs real I/O, so its
environment is modelled explicitly: `FileSystem` is a small POSIX-like model
with a directory (path to inode), inode contents, open file descriptors
(descriptor to inode), and a set of paths on which `open` fails (permission
model).  Deleting a file removes only the directory entry, as `unlink` does;
an open descriptor keeps pointing at its inode.  `File::write` is modelled as
a full write that returns the byte count, and writes are applied to the inode
immediately (no user-space buffering), so `File::flush` has no effect on the
modelled state.

Value types (`Severity`, `Format`, `TimeZone`), the null and terminal
variants, and the `LoggerBuilder` union live in repository files that are not
part of the given sources (`types.rs`, `null.rs`, `terminal.rs`, `lib.rs`);
they are modelled from the spec where indicated.
-/

set_option autoImplicit false

/-- First-match association-list lookup, used for directories, inode tables
and descriptor tables of the filesystem model and for JSON objects. -/
def lookupKey {α : Type} [DecidableEq α] {β : Type} : List (α × β) → α → Option β
  | [], _ => none
  | (k, v) :: rest, k' => if k = k' then some v else lookupKey rest k'

/-- Kind of a modelled `std::io::Error`. -/
inductive IoErrorKind where
  | notFound
  | permissionDenied
  | other
deriving DecidableEq

/-- A modelled `std::io::Error`: a kind plus a message. -/
structure IoError where
  kind : IoErrorKind
  message : String
deriving DecidableEq

/-- POSIX-like filesystem model: directory entries map paths to inodes,
inodes carry byte contents, open descriptors map to inodes, and
`openDenied` lists paths on which opening fails (permission model). -/
structure FileSystem where
  dir : List (String × Nat)
  inodes : List (Nat × List Nat)
  handles : List (Nat × Nat)
  openDenied : List String
  nextIno : Nat
  nextFd : Nat
deriving DecidableEq

/-- The empty filesystem. -/
def FileSystem.empty : FileSystem :=
  { dir := [], inodes := [], handles := [], openDenied := [], nextIno := 0, nextFd := 0 }

/-- `Path::exists`: does the path resolve to a directory entry? -/
def FileSystem.pathExists (fs : FileSystem) (p : String) : Bool :=
  (lookupKey fs.dir p).isSome

/-- `OpenOptions::new().create(true).append(true).write(true).open(p)`:
fails on permission-denied paths; otherwise returns a fresh descriptor for
the existing inode, or creates an empty file first when the path is absent. -/
def FileSystem.openAppend (fs : FileSystem) (p : String) : Except IoError (FileSystem × Nat) :=
  if p ∈ fs.openDenied then
    Except.error { kind := IoErrorKind.permissionDenied, message := "Permission denied: " ++ p }
  else
    match lookupKey fs.dir p with
    | some ino =>
        Except.ok
          ({ fs with handles := (fs.nextFd, ino) :: fs.handles, nextFd := fs.nextFd + 1 },
           fs.nextFd)
    | none =>
        Except.ok
          ({ fs with
              dir := (p, fs.nextIno) :: fs.dir,
              inodes := (fs.nextIno, []) :: fs.inodes,
              handles := (fs.nextFd, fs.nextIno) :: fs.handles,
              nextIno := fs.nextIno + 1,
              nextFd := fs.nextFd + 1 },
           fs.nextFd)

/-- `File::write` through an open descriptor: append the bytes to the
descriptor's inode (writes are applied immediately in the model). -/
def FileSystem.writeFd (fs : FileSystem) (fd : Nat) (buf : List Nat) : FileSystem :=
  match lookupKey fs.handles fd with
  | none => fs
  | some ino =>
      match lookupKey fs.inodes ino with
      | none => fs
      | some data => { fs with inodes := (ino, data ++ buf) :: fs.inodes }

/-- Contents of the file a path currently resolves to, if any. -/
def FileSystem.readFile (fs : FileSystem) (p : String) : Option (List Nat) :=
  match lookupKey fs.dir p with
  | none => none
  | some ino => lookupKey fs.inodes ino

/-- External deletion (`unlink`): removes the directory entry only; inodes
and open descriptors survive, as on POSIX. -/
def FileSystem.deleteFile (fs : FileSystem) (p : String) : FileSystem :=
  { fs with dir := fs.dir.filter (fun pr => pr.1 != p) }

/-- Well-formedness of a filesystem state: every directory entry and every
open descriptor points at an existing inode, and the fresh-name counters
dominate every allocated inode number and descriptor. -/
def FileSystem.WF (fs : FileSystem) : Bool :=
  fs.dir.all (fun pr => (lookupKey fs.inodes pr.2).isSome) &&
  fs.handles.all (fun pr => (lookupKey fs.inodes pr.2).isSome) &&
  fs.inodes.all (fun pr => pr.1 < fs.nextIno) &&
  fs.handles.all (fun pr => pr.1 < fs.nextFd)

/-- `FileAppender` from `src/file.rs`: a path and an optional open handle
(modelled as a file descriptor of the filesystem model). -/
structure FileAppender where
  path : String
  file : Option Nat
deriving DecidableEq

/-- `FileAppender::new`. -/
def FileAppender.new (path : String) : FileAppender :=
  { path := path, file := none }

/-- `impl Clone for FileAppender`: copies the path, never the handle. -/
def FileAppender.clone (a : FileAppender) : FileAppender :=
  { path := a.path, file := none }

/-- `FileAppender::reopen_if_needed`: when the path does not exist or no
handle is held, open the path in create/append/write mode and replace the
held handle; propagate an open failure. -/
def FileAppender.reopen_if_needed (a : FileAppender) (fs : FileSystem) :
    Except IoError (FileSystem × FileAppender) :=
  if !fs.pathExists a.path || a.file.isNone then
    match fs.openAppend a.path with
    | Except.error e => Except.error e
    | Except.ok (fs', fd) => Except.ok (fs', { a with file := some fd })
  else
    Except.ok (fs, a)

/-- `<FileAppender as Write>::write`: reopen if needed, then write through
the held handle; the fallback branch reports a "Cannot open file" error of
kind `Other` when no handle is held after a successful reopen. -/
def FileAppender.write (a : FileAppender) (fs : FileSystem) (buf : List Nat) :
    FileSystem × FileAppender × Except IoError Nat :=
  match a.reopen_if_needed fs with
  | Except.error e => (fs, a, Except.error e)
  | Except.ok (fs', a') =>
      match a'.file with
      | some fd => (fs'.writeFd fd buf, a', Except.ok buf.length)
      | none =>
          (fs', a',
           Except.error { kind := IoErrorKind.other, message := "Cannot open file: " ++ a.path })

/-- `<FileAppender as Write>::flush`: flush the held handle if present
(a no-op on the modelled state, since writes are applied immediately);
a successful no-op when no handle is held. -/
def FileAppender.flush (a : FileAppender) (fs : FileSystem) :
    FileSystem × FileAppender × Except IoError Unit :=
  match a.file with
  | some _ => (fs, a, Except.ok ())
  | none => (fs, a, Except.ok ())

/-- Modelled from the spec: `Severity` from the missing `types.rs`, the
totally ordered six-level enumeration Trace < Debug < Info < Warning <
Error < Critical. -/
inductive Severity where
  | trace
  | debug
  | info
  | warning
  | error
  | critical
deriving DecidableEq, Fintype

/-- Position of a severity in the total order Trace < Debug < Info <
Warning < Error < Critical. -/
def Severity.toNat : Severity → Nat
  | .trace => 0
  | .debug => 1
  | .info => 2
  | .warning => 3
  | .error => 4
  | .critical => 5

/-- Modelled from the spec: `Severity::default` is `Info`. -/
def Severity.default : Severity := Severity.info

/-- Modelled from the spec: the severity filter installed by
`set_level_filter` (missing `types.rs`), the pure predicate
`record_level >= configured_minimum` under the total order. -/
def Severity.passes (record_level configured_minimum : Severity) : Bool :=
  decide (configured_minimum.toNat ≤ record_level.toNat)

/-- Modelled from the spec: `Format` from the missing `types.rs`, the
closed choice Full / Compact. -/
inductive Format where
  | full
  | compact
deriving DecidableEq, Fintype

/-- Modelled from the spec: `Format::default` is `Full`. -/
def Format.default : Format := Format.full

/-- Modelled from the spec: `TimeZone` from the missing `types.rs`, the
closed choice Local / UTC. -/
inductive TimeZone where
  | utc
  | local
deriving DecidableEq, Fintype

/-- Modelled from the spec: `TimeZone::default` is `Local`. -/
def TimeZone.default : TimeZone := TimeZone.local

/-- Modelled from the spec: the terminal destination stream selector from
the missing `terminal.rs`. -/
inductive Destination where
  | stdout
  | stderr
deriving DecidableEq, Fintype

/-- Modelled from the spec: the terminal destination defaults to the
standard error stream. -/
def Destination.default : Destination := Destination.stderr

/-- `ErrorKind` from `src/error.rs`: `Invalid` (invalid input) and
`Other` (unknown error). -/
inductive ErrorKind where
  | invalid
  | other
deriving DecidableEq

/-- The crate error type from `src/error.rs`: a kind with a
human-readable cause (the `TrackableError` payload is modelled as the
message string). -/
structure Error where
  kind : ErrorKind
  message : String
deriving DecidableEq

/-- `FileLoggerBuilder` from `src/file.rs`. -/
structure FileLoggerBuilder where
  format : Format
  timezone : TimeZone
  level : Severity
  appender : FileAppender
  channel_size : Nat
deriving DecidableEq

/-- `FileLoggerBuilder::new`: defaults plus a fresh appender for the path. -/
def FileLoggerBuilder.new (path : String) : FileLoggerBuilder :=
  { format := Format.default,
    timezone := TimeZone.default,
    level := Severity.default,
    appender := FileAppender.new path,
    channel_size := 1024 }

/-- `FileLoggerBuilder::format` setter (named `set_format` because the
field projection already carries the source name). -/
def FileLoggerBuilder.set_format (b : FileLoggerBuilder) (format : Format) : FileLoggerBuilder :=
  { b with format := format }

/-- `FileLoggerBuilder::timezone` setter. -/
def FileLoggerBuilder.set_timezone (b : FileLoggerBuilder) (timezone : TimeZone) :
    FileLoggerBuilder :=
  { b with timezone := timezone }

/-- `FileLoggerBuilder::level` setter. -/
def FileLoggerBuilder.set_level (b : FileLoggerBuilder) (severity : Severity) :
    FileLoggerBuilder :=
  { b with level := severity }

/-- `FileLoggerBuilder::channel_size` setter. -/
def FileLoggerBuilder.set_channel_size (b : FileLoggerBuilder) (channel_size : Nat) :
    FileLoggerBuilder :=
  { b with channel_size := channel_size }

/-- `FileLoggerConfig` from `src/file.rs`. -/
structure FileLoggerConfig where
  level : Severity
  format : Format
  timezone : TimeZone
  path : String
  channel_size : Nat
deriving DecidableEq

/-- `default_channel_size` from `src/file.rs`. -/
def default_channel_size : Nat := 1024

/-- `FileLoggerConfig::try_to_builder`: builds a `FileLoggerBuilder` from
the path and applies the four setters; always returns `Ok`. -/
def FileLoggerConfig.try_to_builder (c : FileLoggerConfig) : Except Error FileLoggerBuilder :=
  Except.ok
    (((((FileLoggerBuilder.new c.path).set_level c.level).set_format
        c.format).set_timezone c.timezone).set_channel_size c.channel_size)

/-- Modelled from the spec: `NullLoggerConfig` from the missing `null.rs`,
an empty payload. -/
structure NullLoggerConfig where
deriving DecidableEq

/-- Modelled from the spec: the null variant's builder from the missing
`null.rs`. -/
structure NullLoggerBuilder where
deriving DecidableEq

/-- Modelled from the spec: the null variant's conversion to a builder,
which cannot fail. -/
def NullLoggerConfig.try_to_builder (_ : NullLoggerConfig) : Except Error NullLoggerBuilder :=
  Except.ok {}

/-- Modelled from the spec: `TerminalLoggerConfig` from the missing
`terminal.rs`: format, time zone, level, destination stream choice. -/
structure TerminalLoggerConfig where
  level : Severity
  format : Format
  timezone : TimeZone
  destination : Destination
deriving DecidableEq

/-- Modelled from the spec: the terminal variant's builder from the
missing `terminal.rs`. -/
structure TerminalLoggerBuilder where
  level : Severity
  format : Format
  timezone : TimeZone
  destination : Destination
deriving DecidableEq

/-- Modelled from the spec: the terminal variant's conversion to a
builder, which cannot fail. -/
def TerminalLoggerConfig.try_to_builder (c : TerminalLoggerConfig) :
    Except Error TerminalLoggerBuilder :=
  Except.ok
    { level := c.level, format := c.format, timezone := c.timezone,
      destination := c.destination }

/-- Modelled from the spec: `LoggerBuilder` from the missing `lib.rs`, the
single closed builder union over the three destination kinds. -/
inductive LoggerBuilder where
  | file : FileLoggerBuilder → LoggerBuilder
  | null : NullLoggerBuilder → LoggerBuilder
  | terminal : TerminalLoggerBuilder → LoggerBuilder
deriving DecidableEq

/-- `LoggerConfig` from `src/config.rs`: the externally visible tagged
union over the three destination kinds. -/
inductive LoggerConfig where
  | file : FileLoggerConfig → LoggerConfig
  | null : NullLoggerConfig → LoggerConfig
  | terminal : TerminalLoggerConfig → LoggerConfig
deriving DecidableEq

/-- `<LoggerConfig as Config>::try_to_builder` from `src/config.rs`:
match on the tag, delegate to the variant's conversion, wrap the result
in the matching `LoggerBuilder` variant (`track!` only adds location
tracking, so it is the identity here). -/
def LoggerConfig.try_to_builder : LoggerConfig → Except Error LoggerBuilder
  | LoggerConfig.file c => Except.map LoggerBuilder.file c.try_to_builder
  | LoggerConfig.null c => Except.map LoggerBuilder.null c.try_to_builder
  | LoggerConfig.terminal c => Except.map LoggerBuilder.terminal c.try_to_builder

/-- The kind of the error carried by a failed result, if any. -/
def errKindOf {α : Type} : Except Error α → Option ErrorKind
  | Except.error e => some e.kind
  | Except.ok _ => none

/-- Structured external values for the serde model: strings, integers and
key/value objects suffice for every logger configuration document. -/
inductive Json where
  | str : String → Json
  | num : Nat → Json
  | obj : List (String × Json) → Json

/-- Modelled from the spec: the lowercase string rendering of a severity
used by the serde implementation in the missing `types.rs`. -/
def Severity.to_str : Severity → String
  | .trace => "trace"
  | .debug => "debug"
  | .info => "info"
  | .warning => "warning"
  | .error => "error"
  | .critical => "critical"

/-- Modelled from the spec: parsing a severity string. -/
def Severity.from_str (s : String) : Option Severity :=
  if s = "trace" then some Severity.trace
  else if s = "debug" then some Severity.debug
  else if s = "info" then some Severity.info
  else if s = "warning" then some Severity.warning
  else if s = "error" then some Severity.error
  else if s = "critical" then some Severity.critical
  else none

/-- Modelled from the spec: the string rendering of a format. -/
def Format.to_str : Format → String
  | .full => "full"
  | .compact => "compact"

/-- Modelled from the spec: parsing a format string. -/
def Format.from_str (s : String) : Option Format :=
  if s = "full" then some Format.full
  else if s = "compact" then some Format.compact
  else none

/-- Modelled from the spec: the string rendering of a time zone. -/
def TimeZone.to_str : TimeZone → String
  | .utc => "utc"
  | .local => "local"

/-- Modelled from the spec: parsing a time zone string. -/
def TimeZone.from_str (s : String) : Option TimeZone :=
  if s = "utc" then some TimeZone.utc
  else if s = "local" then some TimeZone.local
  else none

/-- Modelled from the spec: the string rendering of a destination stream. -/
def Destination.to_str : Destination → String
  | .stdout => "stdout"
  | .stderr => "stderr"

/-- Modelled from the spec: parsing a destination stream string. -/
def Destination.from_str (s : String) : Option Destination :=
  if s = "stdout" then some Destination.stdout
  else if s = "stderr" then some Destination.stderr
  else none

/-- Expect a JSON string. -/
def Json.asStr : Json → Option String
  | Json.str s => some s
  | _ => none

/-- Expect a JSON integer. -/
def Json.asNum : Json → Option Nat
  | Json.num n => some n
  | _ => none

/-- An optional field with a serde `default`: absent means the default,
present means the value must parse. -/
def fieldOr {α : Type} (kvs : List (String × Json)) (k : String) (p : Json → Option α)
    (d : α) : Option α :=
  match lookupKey kvs k with
  | none => some d
  | some v => p v

/-- Serialized fields of a `FileLoggerConfig`, in declaration order, as the
serde derive emits them. -/
def FileLoggerConfig.fields (c : FileLoggerConfig) : List (String × Json) :=
  [("level", Json.str c.level.to_str),
   ("format", Json.str c.format.to_str),
   ("timezone", Json.str c.timezone.to_str),
   ("path", Json.str c.path),
   ("channel_size", Json.num c.channel_size)]

/-- Deserialize a `FileLoggerConfig` from object fields: `level`, `format`,
`timezone` and `channel_size` take their serde defaults when absent;
`path` is required. -/
def FileLoggerConfig.from_fields (kvs : List (String × Json)) : Option FileLoggerConfig := do
  let level ← fieldOr kvs "level" (fun j => j.asStr.bind Severity.from_str) Severity.default
  let format ← fieldOr kvs "format" (fun j => j.asStr.bind Format.from_str) Format.default
  let timezone ← fieldOr kvs "timezone" (fun j => j.asStr.bind TimeZone.from_str)
      TimeZone.default
  let path ← (lookupKey kvs "path").bind Json.asStr
  let channel_size ← fieldOr kvs "channel_size" Json.asNum default_channel_size
  pure { level := level, format := format, timezone := timezone, path := path,
         channel_size := channel_size }

/-- Serialized fields of a `NullLoggerConfig`: none. -/
def NullLoggerConfig.fields (_ : NullLoggerConfig) : List (String × Json) := []

/-- Deserialize a `NullLoggerConfig`: no fields to read. -/
def NullLoggerConfig.from_fields (_ : List (String × Json)) : Option NullLoggerConfig :=
  some {}

/-- Modelled from the spec: serialized fields of a `TerminalLoggerConfig`,
all optional with defaults. -/
def TerminalLoggerConfig.fields (c : TerminalLoggerConfig) : List (String × Json) :=
  [("level", Json.str c.level.to_str),
   ("format", Json.str c.format.to_str),
   ("timezone", Json.str c.timezone.to_str),
   ("destination", Json.str c.destination.to_str)]

/-- Modelled from the spec: deserialize a `TerminalLoggerConfig`; every
field takes its default when absent. -/
def TerminalLoggerConfig.from_fields (kvs : List (String × Json)) :
    Option TerminalLoggerConfig := do
  let level ← fieldOr kvs "level" (fun j => j.asStr.bind Severity.from_str) Severity.default
  let format ← fieldOr kvs "format" (fun j => j.asStr.bind Format.from_str) Format.default
  let timezone ← fieldOr kvs "timezone" (fun j => j.asStr.bind TimeZone.from_str)
      TimeZone.default
  let destination ← fieldOr kvs "destination" (fun j => j.asStr.bind Destination.from_str)
      Destination.default
  pure { level := level, format := format, timezone := timezone,
         destination := destination }

/-- Serialization of the internally tagged `LoggerConfig` union: the
`type` tag first, then the variant's fields. -/
def LoggerConfig.to_json : LoggerConfig → Json
  | LoggerConfig.file c => Json.obj (("type", Json.str "file") :: c.fields)
  | LoggerConfig.null c => Json.obj (("type", Json.str "null") :: c.fields)
  | LoggerConfig.terminal c => Json.obj (("type", Json.str "terminal") :: c.fields)

/-- Deserialization of the tagged union: dispatch on the `type` tag, then
read the variant's fields from the same object. -/
def LoggerConfig.from_json : Json → Option LoggerConfig
  | Json.obj kvs =>
      match lookupKey kvs "type" with
      | some (Json.str "file") => (FileLoggerConfig.from_fields kvs).map LoggerConfig.file
      | some (Json.str "null") => (NullLoggerConfig.from_fields kvs).map LoggerConfig.null
      | some (Json.str "terminal") =>
          (TerminalLoggerConfig.from_fields kvs).map LoggerConfig.terminal
      | _ => none
  | _ => none

theorem lookupKey_cons_self {α β : Type} [DecidableEq α] (k : α) (v : β) (l : List (α × β)) :
    lookupKey ((k, v) :: l) k = some v := by
  simp [lookupKey]

theorem lookupKey_mem {α β : Type} [DecidableEq α] {l : List (α × β)} {k : α} {v : β}
    (h : lookupKey l k = some v) : (k, v) ∈ l := by
  induction l with
  | nil => simp [lookupKey] at h
  | cons hd tl ih =>
      obtain ⟨k1, v1⟩ := hd
      by_cases hk : k1 = k
      · subst hk
        rw [lookupKey_cons_self] at h
        obtain rfl := Option.some.inj h
        exact List.mem_cons_self _ _
      · simp only [lookupKey, if_neg hk] at h
        exact List.mem_cons_of_mem _ (ih h)

/-- In a well-formed filesystem every directory entry's inode exists. -/
theorem FileSystem.WF_dir_inode {fs : FileSystem} (hWF : fs.WF = true) {p : String}
    {ino : Nat} (h : lookupKey fs.dir p = some ino) :
    ∃ d, lookupKey fs.inodes ino = some d := by
  have hmem := lookupKey_mem h
  unfold FileSystem.WF at hWF
  simp only [Bool.and_eq_true, List.all_eq_true] at hWF
  have := hWF.1.1.1 _ hmem
  exact Option.isSome_iff_exists.mp this

/-- In a well-formed filesystem every open descriptor is below the
fresh-descriptor counter. -/
theorem FileSystem.WF_fd_lt {fs : FileSystem} (hWF : fs.WF = true) {fd : Nat}
    (h : fd ∈ fs.handles.map Prod.fst) : fd < fs.nextFd := by
  unfold FileSystem.WF at hWF
  simp only [Bool.and_eq_true, List.all_eq_true, decide_eq_true_eq] at hWF
  obtain ⟨pr, hpr, rfl⟩ := List.mem_map.mp h
  exact hWF.2 _ hpr

/-- A successful `reopen_if_needed` always leaves a handle in place. -/
theorem reopen_ok_file_isSome {a : FileAppender} {fs fs' : FileSystem} {a' : FileAppender}
    (h : a.reopen_if_needed fs = Except.ok (fs', a')) : a'.file.isSome = true := by
  unfold FileAppender.reopen_if_needed at h
  split at h
  · split at h
    · cases h
    · rename_i fs₁ fd hopen
      have h2 := Except.ok.inj h
      rw [Prod.mk.injEq] at h2
      rw [← h2.2]
      rfl
  · rename_i hc
    have h2 := Except.ok.inj h
    rw [Prod.mk.injEq] at h2
    rw [← h2.2]
    cases hf : a.file with
    | none => exact absurd (by simp [hf]) hc
    | some fd => rfl

/-- A failed `reopen_if_needed` reports exactly the failure of the
underlying open call. -/
theorem reopen_error_from_open {a : FileAppender} {fs : FileSystem} {e : IoError}
    (h : a.reopen_if_needed fs = Except.error e) : fs.openAppend a.path = Except.error e := by
  unfold FileAppender.reopen_if_needed at h
  split at h
  · split at h
    · rename_i e' hopen
      obtain rfl := Except.error.inj h
      exact hopen
    · cases h
  · cases h

/-- The only open failure in the model is permission denial. -/
theorem openAppend_error_shape {fs : FileSystem} {p : String} {e : IoError}
    (h : fs.openAppend p = Except.error e) :
    e = { kind := IoErrorKind.permissionDenied, message := "Permission denied: " ++ p } := by
  unfold FileSystem.openAppend at h
  split at h
  · exact (Except.error.inj h).symm
  · split at h <;> cases h



/-- Claim C2 counterexample: a file-tagged configuration with an empty
path does not fail dispatch at all — `try_to_builder` returns `Ok` with a
builder carrying the empty path, not an `Invalid` error. -/
theorem C2_counterexample_empty_path_dispatch_ok :
    FileLoggerConfig.try_to_builder
      { level := Severity.info, format := Format.full, timezone := TimeZone.local,
        path := "", channel_size := 1024 } =
    Except.ok
      { format := Format.full, timezone := TimeZone.local, level := Severity.info,
        appender := { path := "", file := none }, channel_size := 1024 } := rfl

/-- Claim C2 (amended): for every file-tagged configuration, including one
whose path is empty, the dispatch step succeeds with `Ok`, returning a
builder that carries the configured fields verbatim; no `Invalid` error is
produced at dispatch.  A configuration with no `path` field at all is
rejected earlier, at deserialization time, because `path` is a required
field. -/
theorem C2_dispatch_never_fails :
    (∀ c : FileLoggerConfig,
        c.try_to_builder =
          Except.ok
            { format := c.format, timezone := c.timezone, level := c.level,
              appender := { path := c.path, file := none },
              channel_size := c.channel_size })
  ∧ LoggerConfig.from_json (Json.obj [("type", Json.str "file")]) = none := by
  exact ⟨fun c => rfl, rfl⟩

/-- Claim C3: the severity filter is the pure predicate
`passes record_level configured_minimum = record_level >= configured_minimum`
under the total order Trace < Debug < Info < Warning < Error < Critical:
below-minimum records are dropped, at-minimum records pass. -/
theorem C3_severity_filter_total_order :
    (Severity.trace.toNat < Severity.debug.toNat ∧
     Severity.debug.toNat < Severity.info.toNat ∧
     Severity.info.toNat < Severity.warning.toNat ∧
     Severity.warning.toNat < Severity.error.toNat ∧
     Severity.error.toNat < Severity.critical.toNat) ∧
    (∀ r m : Severity, Severity.passes r m = decide (m.toNat ≤ r.toNat)) ∧
    (∀ s1 s2 : Severity, s1.toNat < s2.toNat →
        Severity.passes s1 s2 = false ∧ Severity.passes s2 s2 = true) := by
  refine ⟨by decide, fun r m => rfl, ?_⟩
  decide

/-- Witness for C3 at Trace < Info. -/
theorem C3_severity_filter_total_order_witness :
    Severity.passes Severity.trace Severity.info = false ∧
    Severity.passes Severity.info Severity.info = true :=
  C3_severity_filter_total_order.2.2 Severity.trace Severity.info (by decide)

/-- Claim C6: dispatch matches on the variant tag, delegates to that
variant's own conversion, wraps the result in the corresponding variant of
the closed builder union, and leaves the kind of any conversion failure
unchanged. -/
theorem C6_dispatch_wraps_variant_builders :
    (∀ c : FileLoggerConfig,
        LoggerConfig.try_to_builder (LoggerConfig.file c) =
          Except.map LoggerBuilder.file c.try_to_builder)
  ∧ (∀ c : NullLoggerConfig,
        LoggerConfig.try_to_builder (LoggerConfig.null c) =
          Except.map LoggerBuilder.null c.try_to_builder)
  ∧ (∀ c : TerminalLoggerConfig,
        LoggerConfig.try_to_builder (LoggerConfig.terminal c) =
          Except.map LoggerBuilder.terminal c.try_to_builder)
  ∧ (∀ c : FileLoggerConfig,
        errKindOf (LoggerConfig.try_to_builder (LoggerConfig.file c)) =
          errKindOf c.try_to_builder)
  ∧ (∀ c : NullLoggerConfig,
        errKindOf (LoggerConfig.try_to_builder (LoggerConfig.null c)) =
          errKindOf c.try_to_builder)
  ∧ (∀ c : TerminalLoggerConfig,
        errKindOf (LoggerConfig.try_to_builder (LoggerConfig.terminal c)) =
          errKindOf c.try_to_builder) :=
  ⟨fun _ => rfl, fun _ => rfl, fun _ => rfl, fun _ => rfl, fun _ => rfl, fun _ => rfl⟩

/-- Claim C7: `flush` always succeeds: it flushes the held handle when one
is present and is a successful no-op when none is held; in particular a
freshly constructed writer can be flushed before any write. -/
theorem C7_flush_total_noop_without_handle :
    (∀ (a : FileAppender) (fs : FileSystem), a.flush fs = (fs, a, Except.ok ()))
  ∧ (∀ (p : String) (fs : FileSystem),
        (FileAppender.new p).file = none ∧
        (FileAppender.new p).flush fs = (fs, FileAppender.new p, Except.ok ())) := by
  constructor
  · intro a fs
    cases hf : a.file <;> simp [FileAppender.flush, hf]
  · intro p fs
    exact ⟨rfl, rfl⟩

/-- Claim C8: the defaults are level Info, format Full, timezone Local and
channel capacity 1024, both for a freshly constructed file logger builder
and for a deserialized file configuration whose optional fields are
omitted. -/
theorem C8_default_values :
    (∀ p : String,
        (FileLoggerBuilder.new p).level = Severity.info ∧
        (FileLoggerBuilder.new p).format = Format.full ∧
        (FileLoggerBuilder.new p).timezone = TimeZone.local ∧
        (FileLoggerBuilder.new p).channel_size = 1024)
  ∧ (Severity.default = Severity.info ∧ Format.default = Format.full ∧
     TimeZone.default = TimeZone.local ∧ default_channel_size = 1024)
  ∧ (∀ p : String,
        FileLoggerConfig.from_fields [("path", Json.str p)] =
          some { level := Severity.info, format := Format.full,
                 timezone := TimeZone.local, path := p, channel_size := 1024 }) :=
  ⟨fun _ => ⟨rfl, rfl, rfl, rfl⟩, ⟨rfl, rfl, rfl, rfl⟩, fun _ => rfl⟩

/-- Claim C9: every builder setter is total, updates only its named field,
and returns the updated builder so calls chain. -/
theorem C9_setters_update_only_their_field :
    ∀ (b : FileLoggerBuilder) (f : Format) (tz : TimeZone) (lv : Severity) (cs : Nat),
      ((b.set_format f).format = f ∧ (b.set_format f).timezone = b.timezone ∧
        (b.set_format f).level = b.level ∧ (b.set_format f).appender = b.appender ∧
        (b.set_format f).channel_size = b.channel_size) ∧
      ((b.set_timezone tz).timezone = tz ∧ (b.set_timezone tz).format = b.format ∧
        (b.set_timezone tz).level = b.level ∧ (b.set_timezone tz).appender = b.appender ∧
        (b.set_timezone tz).channel_size = b.channel_size) ∧
      ((b.set_level lv).level = lv ∧ (b.set_level lv).format = b.format ∧
        (b.set_level lv).timezone = b.timezone ∧ (b.set_level lv).appender = b.appender ∧
        (b.set_level lv).channel_size = b.channel_size) ∧
      ((b.set_channel_size cs).channel_size = cs ∧
        (b.set_channel_size cs).format = b.format ∧
        (b.set_channel_size cs).timezone = b.timezone ∧
        (b.set_channel_size cs).level = b.level ∧
        (b.set_channel_size cs).appender = b.appender) :=
  fun _ _ _ _ _ =>
    ⟨⟨rfl, rfl, rfl, rfl, rfl⟩, ⟨rfl, rfl, rfl, rfl, rfl⟩,
     ⟨rfl, rfl, rfl, rfl, rfl⟩, ⟨rfl, rfl, rfl, rfl, rfl⟩⟩

/-- Claim C5: serializing a configuration of any of the three variants and
deserializing the result yields an equal configuration, and omitted
optional fields take their defaults on deserialization (for the file
variant `path` is the only required field; the null and terminal variants
need only the tag). -/
theorem C5_config_serialization_roundtrip :
    (∀ c : LoggerConfig, LoggerConfig.from_json c.to_json = some c)
  ∧ (∀ p : String,
        LoggerConfig.from_json
            (Json.obj [("type", Json.str "file"), ("path", Json.str p)]) =
          some (LoggerConfig.file
            { level := Severity.info, format := Format.full,
              timezone := TimeZone.local, path := p, channel_size := 1024 }))
  ∧ LoggerConfig.from_json (Json.obj [("type", Json.str "null")]) =
      some (LoggerConfig.null {})
  ∧ LoggerConfig.from_json (Json.obj [("type", Json.str "terminal")]) =
      some (LoggerConfig.terminal
        { level := Severity.info, format := Format.full, timezone := TimeZone.local,
          destination := Destination.stderr }) := by
  refine ⟨?_, fun p => rfl, rfl, rfl⟩
  intro c
  cases c with
  | file c =>
      obtain ⟨level, format, timezone, path, channel_size⟩ := c
      cases level <;> cases format <;> cases timezone <;> rfl
  | null c => rfl
  | terminal c =>
      obtain ⟨level, format, timezone, destination⟩ := c
      cases level <;> cases format <;> cases timezone <;> cases destination <;> rfl

/-- Claim C1: when the path does not exist or no handle is held, `write`
first reopens the path in create-if-absent/append/write mode, replacing the
held handle with the fresh descriptor, then writes the bytes through it,
appending them to whatever the path now holds; if the open fails the write
returns that I/O error and changes nothing; and a write after external
deletion succeeds, creating a new file at the same path that contains only
the post-deletion bytes. -/
theorem C1_write_self_healing :
    (∀ (a : FileAppender) (fs : FileSystem) (buf : List Nat),
        fs.WF = true →
        (fs.pathExists a.path = false ∨ a.file = none) →
        a.path ∉ fs.openDenied →
        (a.write fs buf).2.2 = Except.ok buf.length ∧
        (a.write fs buf).2.1.file = some fs.nextFd ∧
        (a.write fs buf).1.readFile a.path =
          some ((fs.readFile a.path).getD [] ++ buf))
  ∧ (∀ (a : FileAppender) (fs : FileSystem) (buf : List Nat) (e : IoError),
        (fs.pathExists a.path = false ∨ a.file = none) →
        fs.openAppend a.path = Except.error e →
        a.write fs buf = (fs, a, Except.error e))
  ∧ (∀ (p : String) (b1 b2 : List Nat),
        (((FileAppender.new p).write FileSystem.empty b1).2.1.write
            (FileSystem.deleteFile ((FileAppender.new p).write FileSystem.empty b1).1 p)
            b2).2.2 = Except.ok b2.length ∧
        ((((FileAppender.new p).write FileSystem.empty b1).2.1.write
            (FileSystem.deleteFile ((FileAppender.new p).write FileSystem.empty b1).1 p)
            b2).1).readFile p = some b2) := by
  refine ⟨?_, ?_, ?_⟩
  · intro a fs buf hWF hcond hdeny
    have hc : (!fs.pathExists a.path || a.file.isNone) = true := by
      rcases hcond with h | h <;> simp [h]
    cases hdir : lookupKey fs.dir a.path with
    | none =>
        have hpe : fs.pathExists a.path = false := by
          simp [FileSystem.pathExists, hdir]
        simp [FileAppender.write, FileAppender.reopen_if_needed, hc,
              FileSystem.openAppend, hdeny, hdir, FileSystem.writeFd,
              FileSystem.readFile, lookupKey, hpe]
    | some ino =>
        obtain ⟨d, hino⟩ := FileSystem.WF_dir_inode hWF hdir
        simp [FileAppender.write, FileAppender.reopen_if_needed, hc,
              FileSystem.openAppend, hdeny, hdir, FileSystem.writeFd,
              FileSystem.readFile, lookupKey, hino]
  · intro a fs buf e hcond hopen
    have hc : (!fs.pathExists a.path || a.file.isNone) = true := by
      rcases hcond with h | h <;> simp [h]
    simp [FileAppender.write, FileAppender.reopen_if_needed, hc, hopen]
  · intro p b1 b2
    simp [FileAppender.write, FileAppender.reopen_if_needed, FileAppender.new,
          FileSystem.openAppend, FileSystem.empty, FileSystem.pathExists,
          FileSystem.writeFd, FileSystem.readFile, FileSystem.deleteFile,
          List.filter, lookupKey]

/-- Witness for C1: a write on a fresh writer over the empty filesystem
succeeds, and a write on a permission-denied path surfaces the open error. -/
theorem C1_write_self_healing_witness :
    (FileSystem.empty.WF = true ∧
     ((FileAppender.new "log").write FileSystem.empty [1, 2]).2.2 = Except.ok 2) ∧
    ((FileAppender.new "log").write
        { dir := [], inodes := [], handles := [], openDenied := ["log"],
          nextIno := 0, nextFd := 0 } [1] =
      ({ dir := [], inodes := [], handles := [], openDenied := ["log"],
         nextIno := 0, nextFd := 0 }, FileAppender.new "log",
       Except.error { kind := IoErrorKind.permissionDenied,
                      message := "Permission denied: log" })) := by
  constructor
  · refine ⟨rfl, ?_⟩
    exact (C1_write_self_healing.1 (FileAppender.new "log") FileSystem.empty [1, 2]
      rfl (Or.inr rfl) (by simp [FileSystem.empty])).1
  · exact C1_write_self_healing.2.1 (FileAppender.new "log")
      { dir := [], inodes := [], handles := [], openDenied := ["log"],
        nextIno := 0, nextFd := 0 } [1]
      { kind := IoErrorKind.permissionDenied, message := "Permission denied: log" }
      (Or.inr rfl) (by simp [FileSystem.openAppend, FileAppender.new])

/-- Claim C4: cloning a file destination writer copies the path and drops
the handle; the clone's first use opens its own fresh descriptor, which can
never coincide with a descriptor already open in the filesystem. -/
theorem C4_clone_never_shares_handle :
    (∀ a : FileAppender, a.clone.path = a.path ∧ a.clone.file = none)
  ∧ (∀ (a : FileAppender) (fs : FileSystem) (buf : List Nat),
        a.path ∉ fs.openDenied →
        (a.clone.write fs buf).2.1.file = some fs.nextFd)
  ∧ (∀ (fs : FileSystem) (a : FileAppender) (fd : Nat),
        fs.WF = true → a.file = some fd → fd ∈ fs.handles.map Prod.fst →
        fd ≠ fs.nextFd) := by
  refine ⟨fun a => ⟨rfl, rfl⟩, ?_, ?_⟩
  · intro a fs buf hdeny
    cases hdir : lookupKey fs.dir a.path with
    | none =>
        simp [FileAppender.clone, FileAppender.write, FileAppender.reopen_if_needed,
              FileSystem.openAppend, hdeny, hdir]
    | some ino =>
        simp [FileAppender.clone, FileAppender.write, FileAppender.reopen_if_needed,
              FileSystem.openAppend, hdeny, hdir]
  · intro fs a fd hWF _ hmem
    exact Nat.ne_of_lt (FileSystem.WF_fd_lt hWF hmem)

/-- Witness for C4: over a filesystem with one open descriptor, a clone of
a writer that holds that descriptor opens the next one instead. -/
theorem C4_clone_never_shares_handle_witness :
    ((FileAppender.mk "log" (some 0)).clone.file = none) ∧
    (((FileAppender.mk "log" (some 0)).clone.write
        { dir := [("log", 0)], inodes := [(0, [])], handles := [(0, 0)],
          openDenied := [], nextIno := 1, nextFd := 1 } [7]).2.1.file = some 1) ∧
    (0 : Nat) ≠ (1 : Nat) := by
  refine ⟨(C4_clone_never_shares_handle.1 (FileAppender.mk "log" (some 0))).2, ?_, ?_⟩
  · exact C4_clone_never_shares_handle.2.1 (FileAppender.mk "log" (some 0))
      { dir := [("log", 0)], inodes := [(0, [])], handles := [(0, 0)],
        openDenied := [], nextIno := 1, nextFd := 1 } [7] (by simp)
  · exact C4_clone_never_shares_handle.2.2
      { dir := [("log", 0)], inodes := [(0, [])], handles := [(0, 0)],
        openDenied := [], nextIno := 1, nextFd := 1 }
      (FileAppender.mk "log" (some 0)) 0 rfl rfl (by simp)

/-- Claim C10: a successful `reopen_if_needed` always leaves a handle in
place, so `write` either returns the handle's write result or an error
produced during reopening; the fallback "Cannot open file" branch is
unreachable. -/
theorem C10_reopen_ok_implies_handle :
    (∀ (a : FileAppender) (fs fs' : FileSystem) (a' : FileAppender),
        a.reopen_if_needed fs = Except.ok (fs', a') → a'.file.isSome = true)
  ∧ (∀ (a : FileAppender) (fs : FileSystem) (buf : List Nat),
        (∃ fs' a' fd, a.reopen_if_needed fs = Except.ok (fs', a') ∧ a'.file = some fd ∧
            a.write fs buf = (fs'.writeFd fd buf, a', Except.ok buf.length)) ∨
        (∃ e, a.reopen_if_needed fs = Except.error e ∧
            a.write fs buf = (fs, a, Except.error e)))
  ∧ (∀ (a : FileAppender) (fs : FileSystem) (buf : List Nat),
        (a.write fs buf).2.2 ≠
          Except.error { kind := IoErrorKind.other,
                         message := "Cannot open file: " ++ a.path }) := by
  refine ⟨fun a fs fs' a' h => reopen_ok_file_isSome h, ?_, ?_⟩
  · intro a fs buf
    cases hre : a.reopen_if_needed fs with
    | error e => exact Or.inr ⟨e, rfl, by simp [FileAppender.write, hre]⟩
    | ok pr =>
        obtain ⟨fs', a'⟩ := pr
        have hs := reopen_ok_file_isSome hre
        cases hf : a'.file with
        | none => rw [hf] at hs; cases hs
        | some fd =>
            exact Or.inl ⟨fs', a', fd, rfl, hf, by simp [FileAppender.write, hre, hf]⟩
  · intro a fs buf
    cases hre : a.reopen_if_needed fs with
    | error e =>
        have hshape := openAppend_error_shape (reopen_error_from_open hre)
        simp [FileAppender.write, hre, hshape]
    | ok pr =>
        obtain ⟨fs', a'⟩ := pr
        have hs := reopen_ok_file_isSome hre
        cases hf : a'.file with
        | none => rw [hf] at hs; cases hs
        | some fd => simp [FileAppender.write, hre, hf]

/-- Witness for C10: reopening a fresh writer on the empty filesystem
succeeds and indeed leaves a handle. -/
theorem C10_reopen_ok_implies_handle_witness :
    ({ path := "log", file := some 0 } : FileAppender).file.isSome = true :=
  C10_reopen_ok_implies_handle.1 (FileAppender.new "log") FileSystem.empty
    { dir := [("log", 0)], inodes := [(0, [])], handles := [(0, 0)],
      openDenied := [], nextIno := 1, nextFd := 1 }
    { path := "log", file := some 0 } rfl
